import Mathlib

/-!
Shallow embedding of the relativity-app physics core and comparison pipeline.

The physics module (constants, body catalog, Schwarzschild radius, rate
functions) and the derived-quantity pipeline from App.tsx are translated to
Lean over the real numbers: JS floating-point arithmetic is modelled as exact
real arithmetic, Math.sqrt as Real.sqrt, and the JS Infinity sentinel as the
top element of the extended reals.
-/

namespace Relativity

noncomputable section

/-- Gravitational constant, m^3 kg^-1 s^-2. -/
def G : ℝ := 6.6743e-11

/-- Speed of light, m/s. -/
def C : ℝ := 299792458

/-- Reference solar mass, kg. -/
def M_SUN : ℝ := 1.98847e30

/-- Reference solar radius, m. -/
def R_SUN : ℝ := 6.957e8

/-- Body classification: normal body or black hole. -/
inductive BodyKind
| normal
| bh
deriving DecidableEq

/-- A catalog body: identity, mass and display radius, with a kind tag. -/
structure Body where
  id : String
  name : String
  massKg : ℝ
  radiusM : ℝ
  kind : BodyKind
deriving DecidableEq

/-- Whether a body is black-hole-classified (body.kind === "bh" in the source). -/
def Body.isBH (b : Body) : Bool :=
  match b.kind with
  | BodyKind.bh => true
  | BodyKind.normal => false

/-- Schwarzschild radius Rs = 2*G*M/c^2. -/
def schwarzschildRadius (massKg : ℝ) : ℝ :=
  2 * G * massKg / (C * C)

/-- Observer mode selector. -/
inductive Mode
| surface
| staticAltitude
| circularOrbit
deriving DecidableEq

def earthBody : Body := ⟨"earth", "地球", 5.972e24, 6.371e6, BodyKind.normal⟩
def moonBody : Body := ⟨"moon", "月", 7.347673e22, 1.7374e6, BodyKind.normal⟩
def marsBody : Body := ⟨"mars", "火星", 6.4171e23, 3.3895e6, BodyKind.normal⟩
def venusBody : Body := ⟨"venus", "金星", 4.8675e24, 6.0518e6, BodyKind.normal⟩
def mercBody : Body := ⟨"merc", "水星", 3.3011e23, 2.4397e6, BodyKind.normal⟩
def jupBody : Body := ⟨"jup", "木星", 1.89813e27, 6.9911e7, BodyKind.normal⟩
def sunBody : Body := ⟨"sun", "太陽", 1.98847e30, 6.9634e8, BodyKind.normal⟩
def nsBody : Body := ⟨"ns", "中性子星 (1.4 M☉, R=12km)", 1.4 * M_SUN, 12000, BodyKind.normal⟩
def r136a1Body : Body := ⟨"r136a1", "R136a1（~200 M☉, ~30 R☉）", 200 * M_SUN, 30 * R_SUN, BodyKind.normal⟩
def bh10Body : Body := ⟨"bh10", "ブラックホール（10 M☉）", 10 * M_SUN, 3000, BodyKind.bh⟩
def sgrABody : Body := ⟨"sgrA", "Sgr A*（銀河中心 ~4.3×10^6 M☉）", 4.3e6 * M_SUN, 1000000, BodyKind.bh⟩

/-- The static body catalog, in declaration order. -/
def BODIES : List Body :=
  [earthBody, moonBody, marsBody, venusBody, mercBody, jupBody, sunBody,
   nsBody, r136a1Body, bh10Body, sgrABody]

/-- Gravitational potential Φ = -G*M/r. -/
def phi (massKg r : ℝ) : ℝ :=
  -G * massKg / r

/-- Weak-field, low-speed approximate rate dτ/dt ≈ 1 + Φ/c² − v²/(2c²). -/
def weakRate (phiVal v : ℝ) : ℝ :=
  1 + phiVal / (C * C) - v * v / (2 * C * C)

/-- Circular-orbit speed v = sqrt(G*M/r). -/
def circularOrbitSpeed (massKg r : ℝ) : ℝ :=
  Real.sqrt (G * massKg / r)

/-- Exact static Schwarzschild rate: x = 2*G*M/(r*c²); 0 at or inside the
horizon (x ≥ 1), otherwise sqrt(1 - x). -/
def schwarzschildStaticRate (massKg r : ℝ) : ℝ :=
  let x := 2 * G * massKg / (r * C * C)
  if x ≥ 1 then 0 else Real.sqrt (1 - x)

/-- Earth reference rate: weak-field formula at the Earth catalog entry's
surface, speed 0 (the fEarth memo in App.tsx). -/
def fEarth : ℝ :=
  weakRate (phi earthBody.massKg earthBody.radiusM) 0

/-- Resolved radial distance of the observer (the r memo in App.tsx):
black-hole bodies use Rs times the clamped multiplier; surface mode uses the
body radius; other modes add the altitude in km times 1000. -/
def resolveR (body : Body) (mode : Mode) (altKm rsMul : ℝ) : ℝ :=
  if body.isBH then schwarzschildRadius body.massKg * max rsMul 1.0001
  else if mode = Mode.surface then body.radiusM
  else body.radiusM + altKm * 1000

/-- Resolved tangential speed of the observer (the v memo in App.tsx):
black-hole bodies are static; circular orbit uses the orbit speed at the
resolved radius; otherwise 0. -/
def resolveV (body : Body) (mode : Mode) (altKm rsMul : ℝ) : ℝ :=
  if body.isBH then 0
  else if mode = Mode.circularOrbit then
    circularOrbitSpeed body.massKg (resolveR body mode altKm rsMul)
  else 0

/-- The observer's local rate (the fBody memo in App.tsx): exact static
formula for black holes, and for non-black-holes when the exact formula is
requested and the resolved speed is zero; weak-field formula otherwise. -/
def fBody (body : Body) (mode : Mode) (altKm : ℝ) (useExactStatic : Bool) (rsMul : ℝ) : ℝ :=
  if body.isBH then
    schwarzschildStaticRate body.massKg (resolveR body mode altKm rsMul)
  else if useExactStatic = true ∧ resolveV body mode altKm rsMul = 0 then
    schwarzschildStaticRate body.massKg (resolveR body mode altKm rsMul)
  else
    weakRate (phi body.massKg (resolveR body mode altKm rsMul)) (resolveV body mode altKm rsMul)

/-- The relative ratio R = fBody / fEarth. -/
def R (body : Body) (mode : Mode) (altKm : ℝ) (useExactStatic : Bool) (rsMul : ℝ) : ℝ :=
  fBody body mode altKm useExactStatic rsMul / fEarth

/-- Per-day difference (R - 1) * 86400 seconds. -/
def perDay (body : Body) (mode : Mode) (altKm : ℝ) (useExactStatic : Bool) (rsMul : ℝ) : ℝ :=
  (R body mode altKm useExactStatic rsMul - 1) * 86400

/-- One Earth second expressed in body seconds: R. -/
def earth1s_to_body (Rv : ℝ) : ℝ := Rv

/-- One body second expressed in Earth seconds: 1/R, or +infinity when R = 0. -/
def body1s_to_earth (Rv : ℝ) : EReal :=
  if Rv = 0 then ⊤ else ((1 / Rv : ℝ) : EReal)

/-- One Earth hour expressed in body seconds: R * 3600. -/
def earth1h_to_body (Rv : ℝ) : ℝ := Rv * 3600

/-- One body hour expressed in Earth seconds: 3600/R, or +infinity when R = 0. -/
def body1h_to_earth (Rv : ℝ) : EReal :=
  if Rv = 0 then ⊤ else ((3600 / Rv : ℝ) : EReal)

/-- Signed, bounded hue shift derived from the ratio (hueShiftFromRatio in
App.tsx). -/
def hueShift (Rv : ℝ) : ℝ :=
  let d := Rv - 1
  let s := min 1 (Real.sqrt |d| * 2e4)
  (if d ≥ 0 then 1 else -1) * s

end

lemma G_pos : 0 < G := by norm_num [G]

lemma C_pos : 0 < C := by norm_num [C]

lemma CC_pos : 0 < C * C := mul_pos C_pos C_pos

lemma earthBody_isBH : earthBody.isBH = false := rfl

lemma bh10Body_isBH : bh10Body.isBH = true := rfl

lemma fEarth_pos : 0 < fEarth := by
  norm_num [fEarth, weakRate, phi, earthBody, G, C]

lemma catalog_pos : ∀ b ∈ BODIES, 0 < b.massKg ∧ 0 < b.radiusM := by
  intro b hb
  simp only [BODIES, List.mem_cons, List.not_mem_nil, or_false] at hb
  rcases hb with rfl|rfl|rfl|rfl|rfl|rfl|rfl|rfl|rfl|rfl|rfl <;>
    refine ⟨by norm_num [earthBody, moonBody, marsBody, venusBody, mercBody, jupBody,
        sunBody, nsBody, r136a1Body, bh10Body, sgrABody, M_SUN, R_SUN],
      by norm_num [earthBody, moonBody, marsBody, venusBody, mercBody, jupBody,
        sunBody, nsBody, r136a1Body, bh10Body, sgrABody, M_SUN, R_SUN]⟩

lemma x_at_mul (m mul : ℝ) (hm : m ≠ 0) (hmul : mul ≠ 0) :
    2 * G * m / (schwarzschildRadius m * mul * C * C) = 1 / mul := by
  have hG : G ≠ 0 := ne_of_gt G_pos
  have hC : C ≠ 0 := ne_of_gt C_pos
  rw [schwarzschildRadius]
  field_simp
  ring

lemma ssr_at_mul (m mul : ℝ) (hm : 0 < m) (hmul : 1 < mul) :
    schwarzschildStaticRate m (schwarzschildRadius m * mul) = Real.sqrt (1 - 1 / mul) := by
  have hmul0 : 0 < mul := lt_trans one_pos hmul
  have hx : 2 * G * m / (schwarzschildRadius m * mul * C * C) = 1 / mul :=
    x_at_mul m mul (ne_of_gt hm) (ne_of_gt hmul0)
  simp only [schwarzschildStaticRate]
  rw [hx, if_neg]
  exact not_le.mpr ((div_lt_one hmul0).mpr hmul)

lemma sqrt_one_sub_inv_lt (m1 m2 : ℝ) (h1 : 1 ≤ m1) (h12 : m1 < m2) :
    Real.sqrt (1 - 1 / m1) < Real.sqrt (1 - 1 / m2) := by
  have hm1 : 0 < m1 := lt_of_lt_of_le one_pos h1
  have hm2 : 0 < m2 := lt_trans hm1 h12
  apply Real.sqrt_lt_sqrt
  · have h : 1 / m1 ≤ 1 := by
      rw [div_le_one hm1]; exact h1
    linarith
  · have h : 1 / m2 < 1 / m1 := one_div_lt_one_div_of_lt hm1 h12
    linarith

/-- Claim C1: for every mass m > 0 and radius r > 0, with x = 2*G*m/(r*C^2),
schwarzschildStaticRate returns exactly 0 when x ≥ 1, and otherwise returns
sqrt (1 - x), a value lying in (0, 1]. -/
theorem schwarzschildStaticRate_spec (m r : ℝ) (hm : 0 < m) (hr : 0 < r) :
    (2 * G * m / (r * C * C) ≥ 1 → schwarzschildStaticRate m r = 0) ∧
    (2 * G * m / (r * C * C) < 1 →
      schwarzschildStaticRate m r = Real.sqrt (1 - 2 * G * m / (r * C * C)) ∧
      0 < schwarzschildStaticRate m r ∧ schwarzschildStaticRate m r ≤ 1) := by
  have hx0 : 0 < 2 * G * m / (r * C * C) :=
    div_pos (mul_pos (mul_pos two_pos G_pos) hm) (mul_pos (mul_pos hr C_pos) C_pos)
  constructor
  · intro hge
    simp only [schwarzschildStaticRate]
    rw [if_pos hge]
  · intro hlt
    have heq : schwarzschildStaticRate m r = Real.sqrt (1 - 2 * G * m / (r * C * C)) := by
      simp only [schwarzschildStaticRate]
      rw [if_neg (not_le.mpr hlt)]
    refine ⟨heq, ?_, ?_⟩
    · rw [heq]
      exact Real.sqrt_pos.mpr (by linarith)
    · rw [heq]
      exact Real.sqrt_le_one.mpr (by linarith)

/-- Witness for C1 at m = 1, r = 1. -/
theorem schwarzschildStaticRate_spec_inst :
    (0:ℝ) < 1 ∧
    ((2 * G * 1 / (1 * C * C) ≥ 1 → schwarzschildStaticRate 1 1 = 0) ∧
     (2 * G * 1 / (1 * C * C) < 1 →
       schwarzschildStaticRate 1 1 = Real.sqrt (1 - 2 * G * 1 / (1 * C * C)) ∧
       0 < schwarzschildStaticRate 1 1 ∧ schwarzschildStaticRate 1 1 ≤ 1)) :=
  ⟨one_pos, schwarzschildStaticRate_spec 1 1 one_pos one_pos⟩

/-- Claim C6: schwarzschildRadius m equals 2*G*m/C^2 exactly and is strictly
increasing in m. -/
theorem schwarzschildRadius_spec :
    (∀ m : ℝ, 0 < m → schwarzschildRadius m = 2 * G * m / C ^ 2) ∧
    (∀ m1 m2 : ℝ, 0 < m1 → m1 < m2 →
      schwarzschildRadius m1 < schwarzschildRadius m2) := by
  constructor
  · intro m _
    rw [schwarzschildRadius]
    ring
  · intro m1 m2 _ h12
    rw [schwarzschildRadius, schwarzschildRadius]
    have h : 2 * G * m1 < 2 * G * m2 := by
      have hG := G_pos
      nlinarith
    exact div_lt_div_of_pos_right h CC_pos

/-- Witness for C6 at m = 1 and the pair 1 < 2. -/
theorem schwarzschildRadius_spec_inst :
    schwarzschildRadius 1 = 2 * G * 1 / C ^ 2 ∧
    schwarzschildRadius 1 < schwarzschildRadius 2 :=
  ⟨schwarzschildRadius_spec.1 1 one_pos, schwarzschildRadius_spec.2 1 2 one_pos one_lt_two⟩

/-- Claim C9: for every ratio, the hue shift equals
sign(R-1) * min(1, sqrt(abs (R-1)) * 2e4) and lies in [-1, 1]. -/
theorem hueShift_spec (Rv : ℝ) :
    hueShift Rv = Real.sign (Rv - 1) * min 1 (Real.sqrt |Rv - 1| * 2e4) ∧
    -1 ≤ hueShift Rv ∧ hueShift Rv ≤ 1 := by
  have hs0 : 0 ≤ min 1 (Real.sqrt |Rv - 1| * 2e4) :=
    le_min (by norm_num) (mul_nonneg (Real.sqrt_nonneg _) (by norm_num))
  have hs1 : min 1 (Real.sqrt |Rv - 1| * 2e4) ≤ 1 := min_le_left _ _
  simp only [hueShift]
  rcases lt_trichotomy (Rv - 1) 0 with hneg | hzero | hpos
  · rw [if_neg (not_le.mpr hneg), Real.sign_of_neg hneg]
    exact ⟨rfl, by linarith, by linarith⟩
  · rw [hzero]
    norm_num [Real.sign_zero, Real.sqrt_zero]
  · rw [if_pos (le_of_lt hpos), Real.sign_of_pos hpos]
    exact ⟨rfl, by linarith, by linarith⟩

/-- Claim C2: fBody is computed with the exact static Schwarzschild formula
exactly when the body is black-hole-classified, or it is not but the exact
formula was requested and the resolved speed is zero; in every other case it
is the weak-field formula at the resolved potential and speed. -/
theorem fBody_formula_selection (body : Body) (mode : Mode) (altKm : ℝ)
    (useExactStatic : Bool) (rsMul : ℝ) :
    (body.isBH = true ∨ (body.isBH = false ∧ useExactStatic = true ∧
        resolveV body mode altKm rsMul = 0) →
      fBody body mode altKm useExactStatic rsMul =
        schwarzschildStaticRate body.massKg (resolveR body mode altKm rsMul)) ∧
    (body.isBH = false ∧
        (useExactStatic = false ∨ resolveV body mode altKm rsMul ≠ 0) →
      fBody body mode altKm useExactStatic rsMul =
        weakRate (phi body.massKg (resolveR body mode altKm rsMul))
          (resolveV body mode altKm rsMul)) := by
  constructor
  · rintro (hbh | ⟨hbh, hu, hv⟩)
    · simp [fBody, hbh]
    · simp [fBody, hbh, hu, hv]
  · rintro ⟨hbh, hu | hv⟩
    · simp [fBody, hbh, hu]
    · simp [fBody, hbh, hv]

/-- Witness for C2: Earth at surface with the exact formula not requested uses
the weak-field formula. -/
theorem fBody_formula_selection_inst :
    fBody earthBody Mode.surface 0 false 2.5 =
      weakRate (phi earthBody.massKg (resolveR earthBody Mode.surface 0 2.5))
        (resolveV earthBody Mode.surface 0 2.5) :=
  (fBody_formula_selection earthBody Mode.surface 0 false 2.5).2 ⟨rfl, Or.inl rfl⟩

/-- Claim C4: comparing the Earth catalog body at surface with the exact
formula not requested gives R = 1 exactly and perDay = 0 exactly. -/
theorem compare_earth_surface (altKm rsMul : ℝ) :
    R earthBody Mode.surface altKm false rsMul = 1 ∧
    perDay earthBody Mode.surface altKm false rsMul = 0 := by
  have hf : fBody earthBody Mode.surface altKm false rsMul = fEarth := by
    simp [fBody, fEarth, resolveV, resolveR, earthBody_isBH]
  have hne : fEarth ≠ 0 := ne_of_gt fEarth_pos
  refine ⟨?_, ?_⟩
  · simp only [R]
    rw [hf, div_self hne]
  · simp only [perDay, R]
    rw [hf, div_self hne]
    ring

/-- Claim C5: bodySecondInEarth is 1/earthSecondInBody when R ≠ 0 and
+infinity when R = 0; the hour-scale quantities are the 3600-scaled
analogues. -/
theorem derived_quantities_roundtrip (Rv : ℝ) :
    (Rv ≠ 0 → body1s_to_earth Rv = ((1 / earth1s_to_body Rv : ℝ) : EReal)) ∧
    (Rv = 0 → body1s_to_earth Rv = ⊤) ∧
    earth1h_to_body Rv = Rv * 3600 ∧
    (Rv ≠ 0 → body1h_to_earth Rv = ((3600 / Rv : ℝ) : EReal)) ∧
    (Rv = 0 → body1h_to_earth Rv = ⊤) := by
  refine ⟨?_, ?_, rfl, ?_, ?_⟩
  · intro h
    simp [body1s_to_earth, earth1s_to_body, h]
  · intro h
    simp [body1s_to_earth, h]
  · intro h
    simp [body1h_to_earth, h]
  · intro h
    simp [body1h_to_earth, h]

/-- Witness for C5 at R = 1. -/
theorem derived_quantities_roundtrip_inst :
    (1:ℝ) ≠ 0 ∧ body1s_to_earth 1 = ((1 / earth1s_to_body 1 : ℝ) : EReal) :=
  ⟨one_ne_zero, (derived_quantities_roundtrip 1).1 one_ne_zero⟩

lemma bh10Body_mass_pos : 0 < bh10Body.massKg := by
  norm_num [bh10Body, M_SUN]

lemma bh10Rs_pos : 0 < schwarzschildRadius bh10Body.massKg :=
  div_pos (mul_pos (mul_pos two_pos G_pos) bh10Body_mass_pos) CC_pos

lemma fBody_bh (body : Body) (mode : Mode) (altKm rsMul : ℝ) (u : Bool)
    (hbh : body.isBH = true) (hmass : 0 < body.massKg) :
    fBody body mode altKm u rsMul = Real.sqrt (1 - 1 / max rsMul 1.0001) := by
  have hmul1 : (1:ℝ) < max rsMul 1.0001 :=
    lt_of_lt_of_le (by norm_num) (le_max_right _ _)
  have hr : resolveR body mode altKm rsMul =
      schwarzschildRadius body.massKg * max rsMul 1.0001 := by
    simp [resolveR, hbh]
  simp only [fBody, hbh, if_true]
  rw [hr, ssr_at_mul body.massKg _ hmass hmul1]

/-- Counterexample to C3 as stated: the multiplier 1.00005 is strictly greater
than 1 but is not used as given; the code clamps every multiplier below
1.0001 up to 1.0001. -/
theorem bh_radius_claim_cex :
    ¬ (resolveR bh10Body Mode.staticAltitude 0 1.00005 =
        schwarzschildRadius bh10Body.massKg * 1.00005) := by
  intro h
  have hmax : max (1.00005 : ℝ) 1.0001 = 1.0001 := max_eq_right (by norm_num)
  have hR : resolveR bh10Body Mode.staticAltitude 0 1.00005 =
      schwarzschildRadius bh10Body.massKg * 1.0001 := by
    simp [resolveR, bh10Body_isBH, hmax]
  rw [hR] at h
  have h2 := mul_left_cancel₀ (ne_of_gt bh10Rs_pos) h
  norm_num at h2

/-- Claim C3 (amended): for every black-hole-classified body the resolved
radius is Rs times max(multiplier, 1.0001): every multiplier below 1.0001
(not only those ≤ 1) is clamped up to 1.0001, multipliers at least 1.0001 are
used as given, and the resolved speed is exactly 0. -/
theorem bh_radius_resolution (body : Body) (mode : Mode) (altKm rsMul : ℝ)
    (hbh : body.isBH = true) :
    resolveR body mode altKm rsMul =
      schwarzschildRadius body.massKg * max rsMul 1.0001 ∧
    (1.0001 ≤ rsMul →
      resolveR body mode altKm rsMul = schwarzschildRadius body.massKg * rsMul) ∧
    (rsMul ≤ 1.0001 →
      resolveR body mode altKm rsMul = schwarzschildRadius body.massKg * 1.0001) ∧
    resolveV body mode altKm rsMul = 0 := by
  refine ⟨by simp [resolveR, hbh], ?_, ?_, by simp [resolveV, hbh]⟩
  · intro h
    simp [resolveR, hbh, max_eq_left h]
  · intro h
    simp [resolveR, hbh, max_eq_right h]

/-- Witness for C3 (amended) at the 10-solar-mass black hole, multiplier 2.5. -/
theorem bh_radius_resolution_inst :
    resolveR bh10Body Mode.staticAltitude 0 2.5 =
      schwarzschildRadius bh10Body.massKg * max 2.5 1.0001 ∧
    resolveV bh10Body Mode.staticAltitude 0 2.5 = 0 := by
  have h := bh_radius_resolution bh10Body Mode.staticAltitude 0 2.5 rfl
  exact ⟨h.1, h.2.2.2⟩

/-- Counterexample to C7 as stated: for the 10-solar-mass black hole the
multipliers 0.5 < 0.9 are both clamped to 1.0001, so fBody does not strictly
increase between them. -/
theorem fBody_multiplier_mono_cex :
    ¬ (fBody bh10Body Mode.staticAltitude 0 false 0.5 <
       fBody bh10Body Mode.staticAltitude 0 false 0.9) := by
  have e1 : fBody bh10Body Mode.staticAltitude 0 false 0.5 =
      Real.sqrt (1 - 1 / max 0.5 1.0001) :=
    fBody_bh bh10Body Mode.staticAltitude 0 0.5 false rfl bh10Body_mass_pos
  have e2 : fBody bh10Body Mode.staticAltitude 0 false 0.9 =
      Real.sqrt (1 - 1 / max 0.9 1.0001) :=
    fBody_bh bh10Body Mode.staticAltitude 0 0.9 false rfl bh10Body_mass_pos
  rw [e1, e2, max_eq_right (by norm_num : (0.5:ℝ) ≤ 1.0001),
      max_eq_right (by norm_num : (0.9:ℝ) ≤ 1.0001)]
  exact lt_irrefl _

/-- Claim C7 (amended): for a fixed black-hole-classified catalog body, fBody
is strictly increasing in the multiplier on multipliers ≥ 1.0001; the clamp
maps all smaller multipliers to the same radius, where fBody is constant. -/
theorem fBody_multiplier_strictMono (body : Body) (mode : Mode) (altKm : ℝ)
    (u : Bool) (m1 m2 : ℝ) (hmem : body ∈ BODIES) (hbh : body.isBH = true)
    (h1 : 1.0001 ≤ m1) (h12 : m1 < m2) :
    fBody body mode altKm u m1 < fBody body mode altKm u m2 := by
  have hmass : 0 < body.massKg := (catalog_pos body hmem).1
  rw [fBody_bh body mode altKm m1 u hbh hmass,
      fBody_bh body mode altKm m2 u hbh hmass,
      max_eq_left h1, max_eq_left (le_of_lt (lt_of_le_of_lt h1 h12))]
  exact sqrt_one_sub_inv_lt m1 m2 (le_trans (by norm_num) h1) h12

/-- Witness for C7 (amended) at the 10-solar-mass black hole, 1.5 < 2. -/
theorem fBody_multiplier_strictMono_inst :
    fBody bh10Body Mode.staticAltitude 0 false 1.5 <
      fBody bh10Body Mode.staticAltitude 0 false 2 :=
  fBody_multiplier_strictMono bh10Body Mode.staticAltitude 0 false 1.5 2
    (by simp [BODIES]) rfl (by norm_num) (by norm_num)

/-- Counterexample to C8 as stated: a negative altitude input drives the
resolved radius below zero. -/
theorem resolveR_positive_cex :
    ¬ (0 < resolveR earthBody Mode.staticAltitude (-7000) 2.5) := by
  have h : resolveR earthBody Mode.staticAltitude (-7000) 2.5 =
      6.371e6 + (-7000) * 1000 := by
    simp [resolveR, Body.isBH, earthBody]
  rw [h]
  norm_num

/-- Claim C8 (amended): for every catalog body, mode and multiplier, and
every non-negative altitude, the resolved radial distance is strictly
positive. -/
theorem resolveR_positive (body : Body) (mode : Mode) (altKm rsMul : ℝ)
    (hmem : body ∈ BODIES) (halt : 0 ≤ altKm) :
    0 < resolveR body mode altKm rsMul := by
  obtain ⟨hmass, hrad⟩ := catalog_pos body hmem
  by_cases hbh : body.isBH = true
  · have h1 : 0 < schwarzschildRadius body.massKg :=
      div_pos (mul_pos (mul_pos two_pos G_pos) hmass) CC_pos
    have h2 : (0:ℝ) < max rsMul 1.0001 :=
      lt_of_lt_of_le (by norm_num) (le_max_right _ _)
    have hr : resolveR body mode altKm rsMul =
        schwarzschildRadius body.massKg * max rsMul 1.0001 := by
      simp [resolveR, hbh]
    rw [hr]
    exact mul_pos h1 h2
  · rw [Bool.not_eq_true] at hbh
    by_cases hm : mode = Mode.surface
    · have hr : resolveR body mode altKm rsMul = body.radiusM := by
        simp [resolveR, hbh, hm]
      rw [hr]
      exact hrad
    · have hr : resolveR body mode altKm rsMul = body.radiusM + altKm * 1000 := by
        simp [resolveR, hbh, hm]
      rw [hr]
      have h3 : 0 ≤ altKm * 1000 := mul_nonneg halt (by norm_num)
      linarith

/-- Witness for C8 (amended) at Earth, surface, altitude 0. -/
theorem resolveR_positive_inst : 0 < resolveR earthBody Mode.surface 0 2.5 :=
  resolveR_positive earthBody Mode.surface 0 2.5 (by simp [BODIES]) le_rfl

/-- Claim C10: through the black-hole pipeline the horizon branch is
unreachable: x ≤ 1/1.0001 < 1, fBody > 0, R > 0, and bodySecondInEarth is
finite (not the +infinity sentinel). -/
theorem bh_pipeline_no_horizon (body : Body) (mode : Mode) (altKm : ℝ)
    (u : Bool) (rsMul : ℝ) (hmem : body ∈ BODIES) (hbh : body.isBH = true) :
    2 * G * body.massKg / (resolveR body mode altKm rsMul * C * C) ≤ 1 / 1.0001 ∧
    0 < fBody body mode altKm u rsMul ∧
    0 < R body mode altKm u rsMul ∧
    body1s_to_earth (R body mode altKm u rsMul) ≠ ⊤ := by
  have hmass : 0 < body.massKg := (catalog_pos body hmem).1
  have hmc1 : (1.0001:ℝ) ≤ max rsMul 1.0001 := le_max_right _ _
  have hmc0 : (0:ℝ) < max rsMul 1.0001 := lt_of_lt_of_le (by norm_num) hmc1
  have hmcgt1 : (1:ℝ) < max rsMul 1.0001 := lt_of_lt_of_le (by norm_num) hmc1
  have hr : resolveR body mode altKm rsMul =
      schwarzschildRadius body.massKg * max rsMul 1.0001 := by
    simp [resolveR, hbh]
  have hx : 2 * G * body.massKg / (resolveR body mode altKm rsMul * C * C) =
      1 / max rsMul 1.0001 := by
    rw [hr]
    exact x_at_mul body.massKg (max rsMul 1.0001) (ne_of_gt hmass) (ne_of_gt hmc0)
  have hinv : 1 / max rsMul 1.0001 < 1 := (div_lt_one hmc0).mpr hmcgt1
  have hfpos : 0 < fBody body mode altKm u rsMul := by
    rw [fBody_bh body mode altKm rsMul u hbh hmass]
    exact Real.sqrt_pos.mpr (by linarith)
  have hRpos : 0 < R body mode altKm u rsMul := by
    simp only [R]
    exact div_pos hfpos fEarth_pos
  refine ⟨?_, hfpos, hRpos, ?_⟩
  · rw [hx]
    exact one_div_le_one_div_of_le (by norm_num) hmc1
  · simp only [body1s_to_earth]
    rw [if_neg (ne_of_gt hRpos)]
    exact EReal.coe_ne_top _

/-- Witness for C10 at the 10-solar-mass black hole, multiplier 2.5. -/
theorem bh_pipeline_no_horizon_inst :
    0 < fBody bh10Body Mode.staticAltitude 0 false 2.5 ∧
    0 < R bh10Body Mode.staticAltitude 0 false 2.5 ∧
    body1s_to_earth (R bh10Body Mode.staticAltitude 0 false 2.5) ≠ ⊤ := by
  have h := bh_pipeline_no_horizon bh10Body Mode.staticAltitude 0 false 2.5
    (by simp [BODIES]) rfl
  exact ⟨h.2.1, h.2.2.1, h.2.2.2⟩

end Relativity
